import Mathlib

/-!
Verification of the story-canvas compositor and interaction controller.

The embedding models the TypeScript sources over exact rationals (ℚ):
JS numbers become ℚ, the React state of the StoryCanvas component becomes
an explicit `CanvasState`, and the mouse handlers become pure state
transformers translated clause for clause from `handleMouseDown` and
`handleMouseMove` in the StoryCanvas component.
-/

namespace Stories

/-- A placement rectangle `{x, y, width, height}` in canvas pixel space,
as in the FloorPlanPosition / BackgroundPosition interfaces. -/
structure Rect where
  x : ℚ
  y : ℚ
  width : ℚ
  height : ℚ
deriving DecidableEq

/-- A pointer position in canvas coordinates. -/
structure Point where
  x : ℚ
  y : ℚ
deriving DecidableEq

/-- The canvas width constant (CANVAS_WIDTH = 1080). -/
def CANVAS_WIDTH : ℚ := 1080

/-- The canvas height constant (CANVAS_HEIGHT = 1920). -/
def CANVAS_HEIGHT : ℚ := 1920

/-- The mutable state of the StoryCanvas component: presence of the two
source images, the two placement rectangles, the four gesture flags and
the stored grab offset (`dragStart`). -/
structure CanvasState where
  floorPlan : Bool
  backgroundImage : Bool
  floorPlanPosition : Rect
  backgroundPosition : Rect
  isDragging : Bool
  isResizing : Bool
  backgroundDragging : Bool
  backgroundResizing : Bool
  dragStart : Point
deriving DecidableEq

/-- `isInFloorPlan` from the StoryCanvas component: the point lies in the
floor-plan body rectangle, and the floor-plan image is present. -/
def isInFloorPlan (s : CanvasState) (x y : ℚ) : Bool :=
  s.floorPlan &&
    (decide (s.floorPlanPosition.x ≤ x) &&
     decide (x ≤ s.floorPlanPosition.x + s.floorPlanPosition.width) &&
     decide (s.floorPlanPosition.y ≤ y) &&
     decide (y ≤ s.floorPlanPosition.y + s.floorPlanPosition.height))

/-- `isInBackground` from the StoryCanvas component. -/
def isInBackground (s : CanvasState) (x y : ℚ) : Bool :=
  s.backgroundImage &&
    (decide (s.backgroundPosition.x ≤ x) &&
     decide (x ≤ s.backgroundPosition.x + s.backgroundPosition.width) &&
     decide (s.backgroundPosition.y ≤ y) &&
     decide (y ≤ s.backgroundPosition.y + s.backgroundPosition.height))

/-- `isInResizeHandle` from the StoryCanvas component: the 20×20 box at the
floor-plan rectangle's bottom-right corner. -/
def isInResizeHandle (s : CanvasState) (x y : ℚ) : Bool :=
  s.floorPlan &&
    (decide (s.floorPlanPosition.x + s.floorPlanPosition.width - 20 ≤ x) &&
     decide (x ≤ s.floorPlanPosition.x + s.floorPlanPosition.width - 20 + 20) &&
     decide (s.floorPlanPosition.y + s.floorPlanPosition.height - 20 ≤ y) &&
     decide (y ≤ s.floorPlanPosition.y + s.floorPlanPosition.height - 20 + 20))

/-- `isInBackgroundResizeHandle` from the StoryCanvas component. -/
def isInBackgroundResizeHandle (s : CanvasState) (x y : ℚ) : Bool :=
  s.backgroundImage &&
    (decide (s.backgroundPosition.x + s.backgroundPosition.width - 20 ≤ x) &&
     decide (x ≤ s.backgroundPosition.x + s.backgroundPosition.width - 20 + 20) &&
     decide (s.backgroundPosition.y + s.backgroundPosition.height - 20 ≤ y) &&
     decide (y ≤ s.backgroundPosition.y + s.backgroundPosition.height - 20 + 20))

/-- `handleMouseDown` from the StoryCanvas component: the four hit tests in
source order with early return; first match wins, no match leaves the
state unchanged. -/
def handleMouseDown (s : CanvasState) (x y : ℚ) : CanvasState :=
  if s.floorPlan && isInResizeHandle s x y then
    { s with isResizing := true, dragStart := ⟨x, y⟩ }
  else if s.backgroundImage && isInBackgroundResizeHandle s x y then
    { s with backgroundResizing := true, dragStart := ⟨x, y⟩ }
  else if s.floorPlan && isInFloorPlan s x y then
    { s with
      isDragging := true
      dragStart := ⟨x - s.floorPlanPosition.x, y - s.floorPlanPosition.y⟩ }
  else if s.backgroundImage && isInBackground s x y then
    { s with
      backgroundDragging := true
      dragStart := ⟨x - s.backgroundPosition.x, y - s.backgroundPosition.y⟩ }
  else s

/-- `handleMouseMove` from the StoryCanvas component: the four gesture
branches in source order (each guarded by the flag and the presence of
that layer's image); when none applies only the hover cursor changes, so
the state is returned unchanged. -/
def handleMouseMove (s : CanvasState) (x y : ℚ) : CanvasState :=
  if s.isDragging && s.floorPlan then
    { s with floorPlanPosition :=
      { s.floorPlanPosition with
        x := max 0 (min (1080 - s.floorPlanPosition.width) (x - s.dragStart.x))
        y := max 200 (min (1720 - s.floorPlanPosition.height) (y - s.dragStart.y)) } }
  else if s.isResizing && s.floorPlan then
    { s with floorPlanPosition :=
      { s.floorPlanPosition with
        width := min (max 100 (x - s.floorPlanPosition.x)) (1070 - s.floorPlanPosition.x)
        height := min (max 75 (y - s.floorPlanPosition.y)) (1910 - s.floorPlanPosition.y) } }
  else if s.backgroundDragging && s.backgroundImage then
    { s with backgroundPosition :=
      { s.backgroundPosition with
        x := max (-200) (min 1280 (x - s.dragStart.x))
        y := max 0 (min (1920 - s.backgroundPosition.height) (y - s.dragStart.y)) } }
  else if s.backgroundResizing && s.backgroundImage then
    { s with backgroundPosition :=
      { s.backgroundPosition with
        width := min (max 400 (x - s.backgroundPosition.x)) (1480 - s.backgroundPosition.x)
        height := min (max 300 (y - s.backgroundPosition.y)) (2220 - s.backgroundPosition.y) } }
  else s

/-- The gesture state is Idle exactly when all four gesture flags are
clear (`handleMouseUp` resets all four). -/
def isIdle (s : CanvasState) : Prop :=
  s.isDragging = false ∧ s.isResizing = false ∧
    s.backgroundDragging = false ∧ s.backgroundResizing = false

instance (s : CanvasState) : Decidable (isIdle s) := by
  unfold isIdle
  infer_instance

/-! ### Compositor geometry (drawStoryCanvas and calculateImageFit) -/

/-- `calculateImageFit` from canvas-utils: aspect-preserving fit of an
`imgWidth × imgHeight` image into a `containerWidth × containerHeight`
box, centered on the non-filling axis. -/
def calculateImageFit (imgWidth imgHeight containerWidth containerHeight : ℚ) : Rect :=
  let imgAspect := imgWidth / imgHeight
  let containerAspect := containerWidth / containerHeight
  if imgAspect > containerAspect then
    { x := 0
      y := (containerHeight - containerWidth / imgAspect) / 2
      width := containerWidth
      height := containerWidth / imgAspect }
  else
    { x := (containerWidth - containerHeight * imgAspect) / 2
      y := 0
      width := containerHeight * imgAspect
      height := containerHeight }

/-- JavaScript `a || d` on numbers with `a` possibly absent: an absent or
zero (falsy) value yields the default `d`. -/
def jsOr (v : Option ℚ) (d : ℚ) : ℚ :=
  match v with
  | some q => if q = 0 then d else q
  | none => d

/-- The floor-plan placement rectangle computed by `drawStoryCanvas`:
`planWidth = floorPlanPosition?.width || 480`,
`planHeight = floorPlanPosition?.height || 320`,
`planX = floorPlanPosition?.x || (CANVAS_WIDTH - planWidth - 60)`,
`planY = floorPlanPosition?.y || 700`. -/
def floorPlanDrawRect (floorPlanPosition : Option Rect) : Rect :=
  let planWidth := jsOr (floorPlanPosition.map Rect.width) 480
  let planHeight := jsOr (floorPlanPosition.map Rect.height) 320
  let planX := jsOr (floorPlanPosition.map Rect.x) (CANVAS_WIDTH - planWidth - 60)
  let planY := jsOr (floorPlanPosition.map Rect.y) 700
  { x := planX, y := planY, width := planWidth, height := planHeight }

/-- The background placement rectangle computed by `drawStoryCanvas` for a
background image of intrinsic size `imgWidth × imgHeight`: an explicit
`backgroundPosition` is used directly, otherwise the image is aspect-fit
into `CANVAS_WIDTH × (CANVAS_HEIGHT * 0.7)` and shifted down by 150. -/
def backgroundDrawRect (backgroundPosition : Option Rect) (imgWidth imgHeight : ℚ) : Rect :=
  match backgroundPosition with
  | some p => p
  | none =>
    let f := calculateImageFit imgWidth imgHeight CANVAS_WIDTH (CANVAS_HEIGHT * (7 / 10))
    { x := f.x, y := f.y + 150, width := f.width, height := f.height }

/-- One canvas drawing operation of the background-layer block, abstracted
to the rectangle it touches. -/
inductive DrawOp where
  | drawImage (r : Rect)
  | strokeRect (r : Rect)
  | fillHandleRect (r : Rect)
  | resizeGlyph (r : Rect)
  | scrim (r : Rect)
deriving DecidableEq

/-- The background-layer drawing sequence of `drawStoryCanvas` in the
story-generator page module: draw the bitmap into the computed rectangle,
optionally the editing chrome, then fill `rgba(0,0,0,0.3)` over exactly
`(bgX, bgY, bgWidth, bgHeight)`. -/
def backgroundLayerOps (backgroundPosition : Option Rect) (imgWidth imgHeight : ℚ)
    (showEditingHandles : Bool) : List DrawOp :=
  let r := backgroundDrawRect backgroundPosition imgWidth imgHeight
  [DrawOp.drawImage r] ++
    (if showEditingHandles then
      [DrawOp.strokeRect r,
       DrawOp.fillHandleRect ⟨r.x + r.width - 20, r.y + r.height - 20, 20, 20⟩,
       DrawOp.resizeGlyph ⟨r.x + r.width - 20, r.y + r.height - 20, 20, 20⟩]
    else []) ++
  [DrawOp.scrim r]

/-- The background-layer drawing sequence of `drawStoryCanvas` in
client/src/lib/canvas-utils.ts: draw the bitmap into the computed
rectangle, then fill `rgba(0,0,0,0.3)` over the whole
`CANVAS_WIDTH × CANVAS_HEIGHT` canvas. -/
def backgroundLayerOpsCanvasUtils (backgroundPosition : Option Rect)
    (imgWidth imgHeight : ℚ) : List DrawOp :=
  let r := backgroundDrawRect backgroundPosition imgWidth imgHeight
  [DrawOp.drawImage r, DrawOp.scrim ⟨0, 0, CANVAS_WIDTH, CANVAS_HEIGHT⟩]

/-- The rectangles of all scrim fills in a drawing sequence. -/
def scrimRects (ops : List DrawOp) : List Rect :=
  ops.filterMap fun op =>
    match op with
    | DrawOp.scrim r => some r
    | _ => none

/-- The rectangles of all bitmap draws in a drawing sequence. -/
def imageRects (ops : List DrawOp) : List Rect :=
  ops.filterMap fun op =>
    match op with
    | DrawOp.drawImage r => some r
    | _ => none

/-! ### Debounced layout notification

The StoryCanvas component notifies the parent of position changes through
an effect keyed on the two rectangles: each rectangle mutation clears the
previously armed `setTimeout` (the effect cleanup runs `clearTimeout`)
and arms a fresh 100 ms timer carrying the rectangles current at that
moment.  The model runs a time-stamped list of mutation events against
the single pending timer: a timer whose 100 ms deadline falls at or
before the next mutation has already fired when that mutation arrives;
otherwise the mutation cancels it.  A timer still pending after the last
event fires once the window elapses. -/
def debounceRun : List (ℚ × Rect × Rect) → Option (ℚ × Rect × Rect) → List (Rect × Rect)
  | [], none => []
  | [], some (_, fp, bg) => [(fp, bg)]
  | (t, fp, bg) :: rest, none => debounceRun rest (some (t + 100, fp, bg))
  | (t, fp, bg) :: rest, some (d, pfp, pbg) =>
    if d ≤ t then (pfp, pbg) :: debounceRun rest (some (t + 100, fp, bg))
    else debounceRun rest (some (t + 100, fp, bg))

/-! ### Mortgage payment -/

/-- `calculateMonthlyPayment` from the story-generator page, with
JavaScript numbers embedded as exact rationals; `Math.round(x*100)/100`
becomes `⌊x*100 + 1/2⌋ / 100`. -/
def calculateMonthlyPayment (totalCost initialPayment rate : ℚ) (years : ℕ) : ℚ :=
  if totalCost ≤ 0 ∨ initialPayment < 0 ∨ rate ≤ 0 then 0
  else
    let loanAmount := totalCost - initialPayment
    if loanAmount ≤ 0 then 0
    else
      let monthlyRate := rate / 100 / 12
      let totalPayments := years * 12
      let monthlyPayment := (loanAmount * monthlyRate * (1 + monthlyRate) ^ totalPayments) /
        ((1 + monthlyRate) ^ totalPayments - 1)
      (⌊monthlyPayment * 100 + 1 / 2⌋ : ℚ) / 100

/-- Modelled from the spec claim's words: the standard annuity payment on
`principal` over `months` months at monthly rate `monthlyRate`. -/
def standardAnnuityPayment (principal monthlyRate : ℚ) (months : ℕ) : ℚ :=
  (principal * monthlyRate * (1 + monthlyRate) ^ months) /
    ((1 + monthlyRate) ^ months - 1)

/-- Modelled from the spec claim's words: rounding to 2 decimal places,
half away from zero for positive arguments (JavaScript `Math.round`). -/
def roundTo2 (q : ℚ) : ℚ :=
  (⌊q * 100 + 1 / 2⌋ : ℚ) / 100

/-! ### The claims -/

/-- C1: the story-generator page's `drawStoryCanvas` overlays the
30%-opacity black scrim exactly over the drawn background rectangle (the
scrim-fill rectangles coincide with the bitmap-draw rectangles for every
placement, image size and handle flag), but the `drawStoryCanvas` in
client/src/lib/canvas-utils.ts fills the scrim over the whole 1080×1920
canvas; evaluated at background rectangle (100, 200, 400, 300) the two
rectangles differ, contradicting the claim for that module. -/
theorem C1_scrim_over_background_rect :
    (∀ bp : Option Rect, ∀ imgW imgH : ℚ, ∀ sh : Bool,
      scrimRects (backgroundLayerOps bp imgW imgH sh) =
        imageRects (backgroundLayerOps bp imgW imgH sh)) ∧
    scrimRects (backgroundLayerOpsCanvasUtils (some ⟨100, 200, 400, 300⟩) 800 600) =
      [⟨0, 0, 1080, 1920⟩] ∧
    imageRects (backgroundLayerOpsCanvasUtils (some ⟨100, 200, 400, 300⟩) 800 600) =
      [⟨100, 200, 400, 300⟩] ∧
    scrimRects (backgroundLayerOpsCanvasUtils (some ⟨100, 200, 400, 300⟩) 800 600) ≠
      imageRects (backgroundLayerOpsCanvasUtils (some ⟨100, 200, 400, 300⟩) 800 600) := by
  refine ⟨fun bp imgW imgH sh => ?_, ?_, ?_, ?_⟩
  · cases sh <;>
      simp [backgroundLayerOps, scrimRects, imageRects]
  · norm_num [backgroundLayerOpsCanvasUtils, scrimRects, backgroundDrawRect,
      CANVAS_WIDTH, CANVAS_HEIGHT, List.filterMap_cons, List.filterMap_nil]
  · norm_num [backgroundLayerOpsCanvasUtils, imageRects, backgroundDrawRect,
      List.filterMap_cons, List.filterMap_nil]
  · norm_num [backgroundLayerOpsCanvasUtils, scrimRects, imageRects,
      backgroundDrawRect, CANVAS_WIDTH, CANVAS_HEIGHT, Rect.mk.injEq,
      List.filterMap_cons, List.filterMap_nil]

/-- C2: pointer-down hit testing follows the fixed priority order of
`handleMouseDown`: a point strictly inside the floor-plan resize handle
starts `ResizingFloorPlan` and never a background gesture; otherwise the
background resize handle, the floor-plan body and the background body are
tried in that order, and with no match the state is unchanged (no gesture
starts). -/
theorem C2_hit_test_priority (s : CanvasState) (x y : ℚ)
    (hidle : s.isDragging = false ∧ s.isResizing = false ∧
      s.backgroundDragging = false ∧ s.backgroundResizing = false) :
    (s.floorPlan = true →
      s.floorPlanPosition.x + s.floorPlanPosition.width - 20 < x →
      x < s.floorPlanPosition.x + s.floorPlanPosition.width →
      s.floorPlanPosition.y + s.floorPlanPosition.height - 20 < y →
      y < s.floorPlanPosition.y + s.floorPlanPosition.height →
      (handleMouseDown s x y).isResizing = true ∧
        (handleMouseDown s x y).isDragging = false ∧
        (handleMouseDown s x y).backgroundDragging = false ∧
        (handleMouseDown s x y).backgroundResizing = false) ∧
    (isInResizeHandle s x y = false → isInBackgroundResizeHandle s x y = true →
      (handleMouseDown s x y).backgroundResizing = true ∧
        (handleMouseDown s x y).isResizing = false ∧
        (handleMouseDown s x y).isDragging = false ∧
        (handleMouseDown s x y).backgroundDragging = false) ∧
    (isInResizeHandle s x y = false → isInBackgroundResizeHandle s x y = false →
      isInFloorPlan s x y = true →
      (handleMouseDown s x y).isDragging = true ∧
        (handleMouseDown s x y).isResizing = false ∧
        (handleMouseDown s x y).backgroundDragging = false ∧
        (handleMouseDown s x y).backgroundResizing = false) ∧
    (isInResizeHandle s x y = false → isInBackgroundResizeHandle s x y = false →
      isInFloorPlan s x y = false → isInBackground s x y = true →
      (handleMouseDown s x y).backgroundDragging = true ∧
        (handleMouseDown s x y).isDragging = false ∧
        (handleMouseDown s x y).isResizing = false ∧
        (handleMouseDown s x y).backgroundResizing = false) ∧
    (isInResizeHandle s x y = false → isInBackgroundResizeHandle s x y = false →
      isInFloorPlan s x y = false → isInBackground s x y = false →
      handleMouseDown s x y = s) := by
  obtain ⟨hd, hr, hbd, hbr⟩ := hidle
  refine ⟨?_, ?_, ?_, ?_, ?_⟩
  · intro hfp h1 h2 h3 h4
    have hin : isInResizeHandle s x y = true := by
      simp only [isInResizeHandle, hfp, Bool.true_and, Bool.and_eq_true,
        decide_eq_true_eq]
      refine ⟨⟨⟨le_of_lt h1, by linarith⟩, le_of_lt h3⟩, by linarith⟩
    simp [handleMouseDown, hin, hfp, hd, hbd, hbr]
  · intro hno hyes
    have hbg : s.backgroundImage = true := by
      have h := hyes
      simp only [isInBackgroundResizeHandle, Bool.and_eq_true] at h
      exact h.1
    simp [handleMouseDown, hno, hyes, hbg, hd, hr, hbd]
  · intro hno1 hno2 hyes
    have hfp : s.floorPlan = true := by
      have h := hyes
      simp only [isInFloorPlan, Bool.and_eq_true] at h
      exact h.1
    simp [handleMouseDown, hno1, hno2, hyes, hfp, hr, hbd, hbr]
  · intro hno1 hno2 hno3 hyes
    have hbg : s.backgroundImage = true := by
      have h := hyes
      simp only [isInBackground, Bool.and_eq_true] at h
      exact h.1
    simp [handleMouseDown, hno1, hno2, hno3, hyes, hbg, hd, hr, hbr]
  · intro hno1 hno2 hno3 hno4
    simp [handleMouseDown, hno1, hno2, hno3, hno4]

/-- C2 witness: with the floor plan at (100, 300, 200, 150) and the
background at (0, 0, 1080, 1350) — the two layers overlap — the point
(290, 440) is strictly inside the floor-plan resize handle and yields
exactly the floor-plan resize gesture. -/
theorem C2_hit_test_priority_witness :
    (handleMouseDown
      ⟨true, true, ⟨100, 300, 200, 150⟩, ⟨0, 0, 1080, 1350⟩,
        false, false, false, false, ⟨0, 0⟩⟩ 290 440).isResizing = true ∧
      (handleMouseDown
        ⟨true, true, ⟨100, 300, 200, 150⟩, ⟨0, 0, 1080, 1350⟩,
          false, false, false, false, ⟨0, 0⟩⟩ 290 440).isDragging = false ∧
      (handleMouseDown
        ⟨true, true, ⟨100, 300, 200, 150⟩, ⟨0, 0, 1080, 1350⟩,
          false, false, false, false, ⟨0, 0⟩⟩ 290 440).backgroundDragging = false ∧
      (handleMouseDown
        ⟨true, true, ⟨100, 300, 200, 150⟩, ⟨0, 0, 1080, 1350⟩,
          false, false, false, false, ⟨0, 0⟩⟩ 290 440).backgroundResizing = false :=
  (C2_hit_test_priority
    ⟨true, true, ⟨100, 300, 200, 150⟩, ⟨0, 0, 1080, 1350⟩,
      false, false, false, false, ⟨0, 0⟩⟩ 290 440
    ⟨rfl, rfl, rfl, rfl⟩).1 rfl (by norm_num) (by norm_num) (by norm_num) (by norm_num)

/-- C3: a pointer-move handled during a drag gesture leaves the dragged
layer's rectangle inside its permitted position bounds: floor plan
x ∈ [0, 1080−width], y ∈ [200, 1920−height]; background x ∈ [-200, 1280],
y ∈ [0, 1920−height].  The size hypotheses are the data-model invariants
(those intervals are nonempty exactly when floor-plan width ≤ 1080 and
height ≤ 1720, and background height ≤ 1920). -/
theorem C3_drag_position_bounds (s : CanvasState) (x y : ℚ) :
    (s.isDragging = true → s.floorPlan = true →
      s.floorPlanPosition.width ≤ 1080 → s.floorPlanPosition.height ≤ 1720 →
      0 ≤ (handleMouseMove s x y).floorPlanPosition.x ∧
        (handleMouseMove s x y).floorPlanPosition.x ≤
          1080 - (handleMouseMove s x y).floorPlanPosition.width ∧
        200 ≤ (handleMouseMove s x y).floorPlanPosition.y ∧
        (handleMouseMove s x y).floorPlanPosition.y ≤
          1920 - (handleMouseMove s x y).floorPlanPosition.height) ∧
    (s.backgroundDragging = true → s.backgroundImage = true →
      s.isDragging = false → s.isResizing = false →
      s.backgroundPosition.height ≤ 1920 →
      -200 ≤ (handleMouseMove s x y).backgroundPosition.x ∧
        (handleMouseMove s x y).backgroundPosition.x ≤ 1280 ∧
        0 ≤ (handleMouseMove s x y).backgroundPosition.y ∧
        (handleMouseMove s x y).backgroundPosition.y ≤
          1920 - (handleMouseMove s x y).backgroundPosition.height) := by
  constructor
  · intro hd hfp hw hh
    simp only [handleMouseMove, hd, hfp, Bool.and_self, if_pos]
    refine ⟨le_max_left _ _, ?_, le_max_left _ _, ?_⟩
    · exact max_le (by linarith) (min_le_left _ _)
    · exact max_le (by linarith)
        (le_trans (min_le_left _ _) (by linarith))
  · intro hbd hbg hd hr hh
    simp only [handleMouseMove, hd, hbd, hbg, hr, Bool.false_and, Bool.and_self,
      if_neg, if_pos, Bool.false_eq_true, not_false_eq_true, ite_false, ite_true]
    refine ⟨le_max_left _ _, ?_, le_max_left _ _, ?_⟩
    · exact max_le (by norm_num) (min_le_left _ _)
    · exact max_le (by linarith) (min_le_left _ _)

/-- C3 witness: a floor-plan drag at (2000, -500) from rectangle
(400, 650, 600, 400) and a background drag at (-900, 3000) from rectangle
(0, 150, 1080, 1350) both land inside the permitted bounds. -/
theorem C3_drag_position_bounds_witness :
    (0 ≤ (handleMouseMove
        ⟨true, true, ⟨400, 650, 600, 400⟩, ⟨0, 150, 1080, 1350⟩,
          true, false, false, false, ⟨10, 20⟩⟩ 2000 (-500)).floorPlanPosition.x ∧
      (handleMouseMove
        ⟨true, true, ⟨400, 650, 600, 400⟩, ⟨0, 150, 1080, 1350⟩,
          true, false, false, false, ⟨10, 20⟩⟩ 2000 (-500)).floorPlanPosition.x ≤
        1080 - (handleMouseMove
          ⟨true, true, ⟨400, 650, 600, 400⟩, ⟨0, 150, 1080, 1350⟩,
            true, false, false, false, ⟨10, 20⟩⟩ 2000 (-500)).floorPlanPosition.width ∧
      200 ≤ (handleMouseMove
        ⟨true, true, ⟨400, 650, 600, 400⟩, ⟨0, 150, 1080, 1350⟩,
          true, false, false, false, ⟨10, 20⟩⟩ 2000 (-500)).floorPlanPosition.y ∧
      (handleMouseMove
        ⟨true, true, ⟨400, 650, 600, 400⟩, ⟨0, 150, 1080, 1350⟩,
          true, false, false, false, ⟨10, 20⟩⟩ 2000 (-500)).floorPlanPosition.y ≤
        1920 - (handleMouseMove
          ⟨true, true, ⟨400, 650, 600, 400⟩, ⟨0, 150, 1080, 1350⟩,
            true, false, false, false, ⟨10, 20⟩⟩ 2000 (-500)).floorPlanPosition.height) ∧
    (-200 ≤ (handleMouseMove
        ⟨false, true, ⟨400, 650, 600, 400⟩, ⟨0, 150, 1080, 1350⟩,
          false, false, true, false, ⟨10, 20⟩⟩ (-900) 3000).backgroundPosition.x ∧
      (handleMouseMove
        ⟨false, true, ⟨400, 650, 600, 400⟩, ⟨0, 150, 1080, 1350⟩,
          false, false, true, false, ⟨10, 20⟩⟩ (-900) 3000).backgroundPosition.x ≤ 1280 ∧
      0 ≤ (handleMouseMove
        ⟨false, true, ⟨400, 650, 600, 400⟩, ⟨0, 150, 1080, 1350⟩,
          false, false, true, false, ⟨10, 20⟩⟩ (-900) 3000).backgroundPosition.y ∧
      (handleMouseMove
        ⟨false, true, ⟨400, 650, 600, 400⟩, ⟨0, 150, 1080, 1350⟩,
          false, false, true, false, ⟨10, 20⟩⟩ (-900) 3000).backgroundPosition.y ≤
        1920 - (handleMouseMove
          ⟨false, true, ⟨400, 650, 600, 400⟩, ⟨0, 150, 1080, 1350⟩,
            false, false, true, false, ⟨10, 20⟩⟩ (-900) 3000).backgroundPosition.height) :=
  ⟨(C3_drag_position_bounds
      ⟨true, true, ⟨400, 650, 600, 400⟩, ⟨0, 150, 1080, 1350⟩,
        true, false, false, false, ⟨10, 20⟩⟩ 2000 (-500)).1
      rfl rfl (by norm_num) (by norm_num),
    (C3_drag_position_bounds
      ⟨false, true, ⟨400, 650, 600, 400⟩, ⟨0, 150, 1080, 1350⟩,
        false, false, true, false, ⟨10, 20⟩⟩ (-900) 3000).2
      rfl rfl rfl rfl (by norm_num)⟩

/-- C4 counterexample: with the background at (1280, 0, 400, 300) — a
position reachable by dragging, x = 1280 being the drag clamp's upper
bound — a resize move to pointer (1400, 2000) produces width 200 < 400
and x + width = 1480 > 1080, falsifying both the minimum-size bound and
the canvas-edge bound of the claim. -/
theorem C4_resize_bounds_counterexample :
    ¬ (400 ≤ (handleMouseMove
        ⟨false, true, ⟨0, 0, 100, 75⟩, ⟨1280, 0, 400, 300⟩,
          false, false, false, true, ⟨0, 0⟩⟩ 1400 2000).backgroundPosition.width ∧
      (handleMouseMove
        ⟨false, true, ⟨0, 0, 100, 75⟩, ⟨1280, 0, 400, 300⟩,
          false, false, false, true, ⟨0, 0⟩⟩ 1400 2000).backgroundPosition.x +
        (handleMouseMove
          ⟨false, true, ⟨0, 0, 100, 75⟩, ⟨1280, 0, 400, 300⟩,
            false, false, false, true, ⟨0, 0⟩⟩ 1400 2000).backgroundPosition.width ≤
        1080) := by
  norm_num [handleMouseMove]

/-- C4 amended: a resize move keeps the rectangle's origin and clamps the
new size from above by the code's caps — floor plan x+width ≤ 1070 and
y+height ≤ 1910, background x+width ≤ 1480 and y+height ≤ 2220 (the
background may extend past the 1080×1920 canvas) — and from below by the
layer minimum (floor plan 100×75, background 400×300) whenever the cap
leaves room for it (floor plan x ≤ 970 and y ≤ 1835; background x ≤ 1080
and y ≤ 1920); in general the new size is at least the smaller of the
minimum and the cap. -/
theorem C4_resize_size_bounds (s : CanvasState) (x y : ℚ) :
    (s.isResizing = true → s.floorPlan = true → s.isDragging = false →
      (handleMouseMove s x y).floorPlanPosition.x +
          (handleMouseMove s x y).floorPlanPosition.width ≤ 1070 ∧
        (handleMouseMove s x y).floorPlanPosition.y +
          (handleMouseMove s x y).floorPlanPosition.height ≤ 1910 ∧
        min 100 (1070 - s.floorPlanPosition.x) ≤
          (handleMouseMove s x y).floorPlanPosition.width ∧
        min 75 (1910 - s.floorPlanPosition.y) ≤
          (handleMouseMove s x y).floorPlanPosition.height ∧
        (s.floorPlanPosition.x ≤ 970 →
          100 ≤ (handleMouseMove s x y).floorPlanPosition.width) ∧
        (s.floorPlanPosition.y ≤ 1835 →
          75 ≤ (handleMouseMove s x y).floorPlanPosition.height)) ∧
    (s.backgroundResizing = true → s.backgroundImage = true →
      s.isDragging = false → s.isResizing = false → s.backgroundDragging = false →
      (handleMouseMove s x y).backgroundPosition.x +
          (handleMouseMove s x y).backgroundPosition.width ≤ 1480 ∧
        (handleMouseMove s x y).backgroundPosition.y +
          (handleMouseMove s x y).backgroundPosition.height ≤ 2220 ∧
        min 400 (1480 - s.backgroundPosition.x) ≤
          (handleMouseMove s x y).backgroundPosition.width ∧
        min 300 (2220 - s.backgroundPosition.y) ≤
          (handleMouseMove s x y).backgroundPosition.height ∧
        (s.backgroundPosition.x ≤ 1080 →
          400 ≤ (handleMouseMove s x y).backgroundPosition.width) ∧
        (s.backgroundPosition.y ≤ 1920 →
          300 ≤ (handleMouseMove s x y).backgroundPosition.height)) := by
  constructor
  · intro hr hfp hd
    simp only [handleMouseMove, hd, hr, hfp, Bool.false_and, Bool.and_self,
      Bool.false_eq_true, not_false_eq_true, ite_false, ite_true]
    refine ⟨?_, ?_, ?_, ?_, ?_, ?_⟩
    · have := min_le_right (max 100 (x - s.floorPlanPosition.x))
        (1070 - s.floorPlanPosition.x)
      linarith
    · have := min_le_right (max 75 (y - s.floorPlanPosition.y))
        (1910 - s.floorPlanPosition.y)
      linarith
    · exact min_le_min (le_max_left _ _) (le_refl _)
    · exact min_le_min (le_max_left _ _) (le_refl _)
    · intro hx
      exact le_min (le_max_left _ _) (by linarith)
    · intro hy
      exact le_min (le_max_left _ _) (by linarith)
  · intro hbr hbg hd hr hbd
    simp only [handleMouseMove, hd, hr, hbd, hbr, hbg, Bool.false_and, Bool.and_self,
      Bool.false_eq_true, not_false_eq_true, ite_false, ite_true]
    refine ⟨?_, ?_, ?_, ?_, ?_, ?_⟩
    · have := min_le_right (max 400 (x - s.backgroundPosition.x))
        (1480 - s.backgroundPosition.x)
      linarith
    · have := min_le_right (max 300 (y - s.backgroundPosition.y))
        (2220 - s.backgroundPosition.y)
      linarith
    · exact min_le_min (le_max_left _ _) (le_refl _)
    · exact min_le_min (le_max_left _ _) (le_refl _)
    · intro hx
      exact le_min (le_max_left _ _) (by linarith)
    · intro hy
      exact le_min (le_max_left _ _) (by linarith)

/-- C4 witness: a floor-plan resize from rectangle (400, 650, 600, 400)
toward pointer (2000, 3000) stays within the caps and above the minimum
size. -/
theorem C4_resize_size_bounds_witness :
    (handleMouseMove
        ⟨true, false, ⟨400, 650, 600, 400⟩, ⟨0, 150, 1080, 1350⟩,
          false, true, false, false, ⟨0, 0⟩⟩ 2000 3000).floorPlanPosition.x +
        (handleMouseMove
          ⟨true, false, ⟨400, 650, 600, 400⟩, ⟨0, 150, 1080, 1350⟩,
            false, true, false, false, ⟨0, 0⟩⟩ 2000 3000).floorPlanPosition.width ≤ 1070 ∧
      (handleMouseMove
        ⟨true, false, ⟨400, 650, 600, 400⟩, ⟨0, 150, 1080, 1350⟩,
          false, true, false, false, ⟨0, 0⟩⟩ 2000 3000).floorPlanPosition.y +
        (handleMouseMove
          ⟨true, false, ⟨400, 650, 600, 400⟩, ⟨0, 150, 1080, 1350⟩,
            false, true, false, false, ⟨0, 0⟩⟩ 2000 3000).floorPlanPosition.height ≤ 1910 ∧
      min 100 (1070 - (400 : ℚ)) ≤
        (handleMouseMove
          ⟨true, false, ⟨400, 650, 600, 400⟩, ⟨0, 150, 1080, 1350⟩,
            false, true, false, false, ⟨0, 0⟩⟩ 2000 3000).floorPlanPosition.width ∧
      min 75 (1910 - (650 : ℚ)) ≤
        (handleMouseMove
          ⟨true, false, ⟨400, 650, 600, 400⟩, ⟨0, 150, 1080, 1350⟩,
            false, true, false, false, ⟨0, 0⟩⟩ 2000 3000).floorPlanPosition.height ∧
      ((400 : ℚ) ≤ 970 →
        100 ≤ (handleMouseMove
          ⟨true, false, ⟨400, 650, 600, 400⟩, ⟨0, 150, 1080, 1350⟩,
            false, true, false, false, ⟨0, 0⟩⟩ 2000 3000).floorPlanPosition.width) ∧
      ((650 : ℚ) ≤ 1835 →
        75 ≤ (handleMouseMove
          ⟨true, false, ⟨400, 650, 600, 400⟩, ⟨0, 150, 1080, 1350⟩,
            false, true, false, false, ⟨0, 0⟩⟩ 2000 3000).floorPlanPosition.height) :=
  (C4_resize_size_bounds
    ⟨true, false, ⟨400, 650, 600, 400⟩, ⟨0, 150, 1080, 1350⟩,
      false, true, false, false, ⟨0, 0⟩⟩ 2000 3000).1 rfl rfl rfl

/-- C5 counterexample: the floor-plan rectangle (0, 700, 480, 320) — x = 0
is within the layer's permitted bounds — is not used verbatim: the `||`
fallback in `drawStoryCanvas` replaces the zero x by the default
1080 − 480 − 60 = 540. -/
theorem C5_explicit_rect_counterexample :
    floorPlanDrawRect (some ⟨0, 700, 480, 320⟩) ≠ ⟨0, 700, 480, 320⟩ ∧
      floorPlanDrawRect (some ⟨0, 700, 480, 320⟩) = ⟨540, 700, 480, 320⟩ := by
  constructor
  · norm_num [floorPlanDrawRect, jsOr, CANVAS_WIDTH, Rect.mk.injEq]
  · norm_num [floorPlanDrawRect, jsOr, CANVAS_WIDTH, Rect.mk.injEq]

/-- C5 amended: an explicit `backgroundRect` is always drawn into
verbatim; an explicit `floorPlanRect` is taken field by field through the
JavaScript `||` fallback, so it is used verbatim only when every field is
nonzero — a zero field falls back to that field's default, in particular
x = 0 yields the default x = 1080 − width − 60 — and an absent rectangle
yields the default (540, 700, 480, 320). -/
theorem C5_explicit_rect_usage (p : Rect) (imgW imgH : ℚ) :
    backgroundDrawRect (some p) imgW imgH = p ∧
      (p.x ≠ 0 → p.y ≠ 0 → p.width ≠ 0 → p.height ≠ 0 →
        floorPlanDrawRect (some p) = p) ∧
      floorPlanDrawRect none = ⟨1080 - 480 - 60, 700, 480, 320⟩ ∧
      (p.x = 0 → p.y ≠ 0 → p.width ≠ 0 → p.height ≠ 0 →
        floorPlanDrawRect (some p) =
          ⟨1080 - p.width - 60, p.y, p.width, p.height⟩) := by
  refine ⟨rfl, ?_, ?_, ?_⟩
  · intro hx hy hw hh
    simp [floorPlanDrawRect, jsOr, hx, hy, hw, hh]
  · norm_num [floorPlanDrawRect, jsOr, CANVAS_WIDTH, Rect.mk.injEq]
  · intro hx hy hw hh
    simp [floorPlanDrawRect, jsOr, hx, hy, hw, hh, CANVAS_WIDTH]

/-- C5 witness: the all-nonzero floor-plan rectangle (200, 700, 480, 320)
is used verbatim, and (0, 700, 480, 320) gets the default x. -/
theorem C5_explicit_rect_usage_witness :
    (floorPlanDrawRect (some ⟨200, 700, 480, 320⟩) = ⟨200, 700, 480, 320⟩) ∧
      (floorPlanDrawRect (some ⟨0, 700, 480, 320⟩) =
        ⟨1080 - (480 : ℚ) - 60, 700, 480, 320⟩) :=
  ⟨(C5_explicit_rect_usage ⟨200, 700, 480, 320⟩ 0 0).2.1
      (by norm_num) (by norm_num) (by norm_num) (by norm_num),
    (C5_explicit_rect_usage ⟨0, 700, 480, 320⟩ 0 0).2.2.2
      rfl (by norm_num) (by norm_num) (by norm_num)⟩

/-- C6: `calculateImageFit` follows the aspect-fit formula — if the image
aspect exceeds the container aspect the width fills the container and the
result is centered vertically, otherwise the height fills the container
and the result is centered horizontally — the result always lies entirely
within the container, and fitting an 800×600 image into a 1600×900 box
yields exactly (200, 0, 1200, 900). -/
theorem C6_calculateImageFit_spec (imgW imgH cw ch : ℚ)
    (hiw : 0 < imgW) (hih : 0 < imgH) (hcw : 0 < cw) (hch : 0 < ch) :
    (imgW / imgH > cw / ch →
      calculateImageFit imgW imgH cw ch =
        ⟨0, (ch - cw / (imgW / imgH)) / 2, cw, cw / (imgW / imgH)⟩) ∧
      (¬ imgW / imgH > cw / ch →
        calculateImageFit imgW imgH cw ch =
          ⟨(cw - ch * (imgW / imgH)) / 2, 0, ch * (imgW / imgH), ch⟩) ∧
      (0 ≤ (calculateImageFit imgW imgH cw ch).x ∧
        (calculateImageFit imgW imgH cw ch).x +
          (calculateImageFit imgW imgH cw ch).width ≤ cw ∧
        0 ≤ (calculateImageFit imgW imgH cw ch).y ∧
        (calculateImageFit imgW imgH cw ch).y +
          (calculateImageFit imgW imgH cw ch).height ≤ ch) ∧
      calculateImageFit 800 600 1600 900 = ⟨200, 0, 1200, 900⟩ := by
  have hia : 0 < imgW / imgH := div_pos hiw hih
  have hca : 0 < cw / ch := div_pos hcw hch
  refine ⟨?_, ?_, ?_, ?_⟩
  · intro h
    simp only [calculateImageFit, if_pos h]
  · intro h
    simp only [calculateImageFit, if_neg h]
  · by_cases h : imgW / imgH > cw / ch
    · have hle : cw / (imgW / imgH) ≤ ch := by
        rw [div_le_iff₀ hia]
        calc cw = cw / ch * ch := by field_simp
        _ ≤ imgW / imgH * ch := by
          exact mul_le_mul_of_nonneg_right (le_of_lt h) (le_of_lt hch)
        _ = ch * (imgW / imgH) := by ring
      have hpos : 0 < cw / (imgW / imgH) := div_pos hcw hia
      simp only [calculateImageFit, if_pos h]
      refine ⟨le_refl _, by linarith, by linarith, by linarith⟩
    · have hle : ch * (imgW / imgH) ≤ cw := by
        have h2 : imgW / imgH ≤ cw / ch := not_lt.mp h
        calc ch * (imgW / imgH) ≤ ch * (cw / ch) :=
          mul_le_mul_of_nonneg_left h2 (le_of_lt hch)
        _ = cw := by field_simp
      have hpos : 0 < ch * (imgW / imgH) := mul_pos hch hia
      simp only [calculateImageFit, if_neg h]
      refine ⟨by linarith, by linarith, le_refl _, by linarith⟩
  · norm_num [calculateImageFit, Rect.mk.injEq]

/-- C6 witness: the 800×600 into 1600×900 instance, containment included. -/
theorem C6_calculateImageFit_witness :
    (0 ≤ (calculateImageFit 800 600 1600 900).x ∧
      (calculateImageFit 800 600 1600 900).x +
        (calculateImageFit 800 600 1600 900).width ≤ 1600 ∧
      0 ≤ (calculateImageFit 800 600 1600 900).y ∧
      (calculateImageFit 800 600 1600 900).y +
        (calculateImageFit 800 600 1600 900).height ≤ 900) ∧
    calculateImageFit 800 600 1600 900 = ⟨200, 0, 1200, 900⟩ :=
  ⟨(C6_calculateImageFit_spec 800 600 1600 900
      (by norm_num) (by norm_num) (by norm_num) (by norm_num)).2.2.1,
    (C6_calculateImageFit_spec 800 600 1600 900
      (by norm_num) (by norm_num) (by norm_num) (by norm_num)).2.2.2⟩

/-- C7 counterexample: with a floor-plan drag active (`isDragging = true`)
and the floor-plan image removed, the pointer-move at (500, 500) does NOT
transition the gesture state to Idle — the drag flag stays set. -/
theorem C7_orphaned_gesture_counterexample :
    ¬ isIdle (handleMouseMove
      ⟨false, false, ⟨440, 650, 600, 400⟩, ⟨0, 150, 1080, 1350⟩,
        true, false, false, false, ⟨10, 20⟩⟩ 500 500) := by
  norm_num [handleMouseMove, isIdle]

/-- C7 amended: when the gestured layer's image has been removed
mid-gesture, the next pointer-move leaves the whole state unchanged — no
exception is modelled because the handler is total, and neither rectangle
is mutated — but the gesture state does not become Idle: the stale flag
persists until pointer-up clears it. -/
theorem C7_orphaned_gesture (s : CanvasState) (x y : ℚ) :
    (s.isDragging = true → s.floorPlan = false → s.isResizing = false →
      s.backgroundDragging = false → s.backgroundResizing = false →
      handleMouseMove s x y = s ∧ ¬ isIdle (handleMouseMove s x y)) ∧
    (s.isResizing = true → s.floorPlan = false → s.isDragging = false →
      s.backgroundDragging = false → s.backgroundResizing = false →
      handleMouseMove s x y = s ∧ ¬ isIdle (handleMouseMove s x y)) ∧
    (s.backgroundDragging = true → s.backgroundImage = false →
      s.isDragging = false → s.isResizing = false → s.backgroundResizing = false →
      handleMouseMove s x y = s ∧ ¬ isIdle (handleMouseMove s x y)) ∧
    (s.backgroundResizing = true → s.backgroundImage = false →
      s.isDragging = false → s.isResizing = false → s.backgroundDragging = false →
      handleMouseMove s x y = s ∧ ¬ isIdle (handleMouseMove s x y)) := by
  refine ⟨?_, ?_, ?_, ?_⟩
  · intro h1 h2 h3 h4 h5
    have heq : handleMouseMove s x y = s := by
      simp [handleMouseMove, h2, h3, h4, h5]
    exact ⟨heq, by rw [heq]; simp [isIdle, h1]⟩
  · intro h1 h2 h3 h4 h5
    have heq : handleMouseMove s x y = s := by
      simp [handleMouseMove, h2, h3, h4, h5]
    exact ⟨heq, by rw [heq]; simp [isIdle, h1]⟩
  · intro h1 h2 h3 h4 h5
    have heq : handleMouseMove s x y = s := by
      simp [handleMouseMove, h2, h3, h4, h5]
    exact ⟨heq, by rw [heq]; simp [isIdle, h1]⟩
  · intro h1 h2 h3 h4 h5
    have heq : handleMouseMove s x y = s := by
      simp [handleMouseMove, h2, h3, h4, h5]
    exact ⟨heq, by rw [heq]; simp [isIdle, h1]⟩

/-- C7 witness: the orphaned floor-plan drag of the counterexample state
leaves the state unchanged and not Idle. -/
theorem C7_orphaned_gesture_witness :
    handleMouseMove
        ⟨false, false, ⟨440, 650, 600, 400⟩, ⟨0, 150, 1080, 1350⟩,
          true, false, false, false, ⟨10, 20⟩⟩ 600 700 =
      ⟨false, false, ⟨440, 650, 600, 400⟩, ⟨0, 150, 1080, 1350⟩,
        true, false, false, false, ⟨10, 20⟩⟩ ∧
      ¬ isIdle (handleMouseMove
        ⟨false, false, ⟨440, 650, 600, 400⟩, ⟨0, 150, 1080, 1350⟩,
          true, false, false, false, ⟨10, 20⟩⟩ 600 700) :=
  (C7_orphaned_gesture
    ⟨false, false, ⟨440, 650, 600, 400⟩, ⟨0, 150, 1080, 1350⟩,
      true, false, false, false, ⟨10, 20⟩⟩ 600 700).1 rfl rfl rfl rfl rfl

/-- C8: five rectangle mutations inside one 100 ms window produce exactly
one layout notification, carrying only the final pair of rectangles: each
mutation cancels the pending timer and arms a fresh one, and only the
last timer survives to fire. -/
theorem C8_debounce_single_notification
    (t1 t2 t3 t4 t5 : ℚ) (f1 b1 f2 b2 f3 b3 f4 b4 f5 b5 : Rect)
    (h12 : t1 ≤ t2) (h23 : t2 ≤ t3) (h34 : t3 ≤ t4) (h45 : t4 ≤ t5)
    (hwin : t5 < t1 + 100) :
    debounceRun
      [(t1, f1, b1), (t2, f2, b2), (t3, f3, b3), (t4, f4, b4), (t5, f5, b5)]
      none = [(f5, b5)] := by
  have n2 : ¬ (t1 + 100 ≤ t2) := by linarith
  have n3 : ¬ (t2 + 100 ≤ t3) := by linarith
  have n4 : ¬ (t3 + 100 ≤ t4) := by linarith
  have n5 : ¬ (t4 + 100 ≤ t5) := by linarith
  simp [debounceRun, n2, n3, n4, n5]

/-- C8 witness: five mutations at times 0, 20, 40, 60, 80 yield the single
notification carrying the rectangles of the fifth mutation. -/
theorem C8_debounce_single_notification_witness :
    debounceRun
      [(0, ⟨1, 1, 1, 1⟩, ⟨2, 2, 2, 2⟩), (20, ⟨3, 3, 3, 3⟩, ⟨4, 4, 4, 4⟩),
        (40, ⟨5, 5, 5, 5⟩, ⟨6, 6, 6, 6⟩), (60, ⟨7, 7, 7, 7⟩, ⟨8, 8, 8, 8⟩),
        (80, ⟨0, 150, 1080, 1350⟩, ⟨440, 650, 600, 400⟩)]
      none = [(⟨0, 150, 1080, 1350⟩, ⟨440, 650, 600, 400⟩)] :=
  C8_debounce_single_notification 0 20 40 60 80
    ⟨1, 1, 1, 1⟩ ⟨2, 2, 2, 2⟩ ⟨3, 3, 3, 3⟩ ⟨4, 4, 4, 4⟩ ⟨5, 5, 5, 5⟩ ⟨6, 6, 6, 6⟩
    ⟨7, 7, 7, 7⟩ ⟨8, 8, 8, 8⟩ ⟨0, 150, 1080, 1350⟩ ⟨440, 650, 600, 400⟩
    (by norm_num) (by norm_num) (by norm_num) (by norm_num) (by norm_num)

/-- The state `handleMouseDown` produces when the background body is hit:
`backgroundDragging` set and the grab offset pointer − origin stored. -/
def mkBgDragState (fpr bg : Rect) (g : Point) : CanvasState :=
  ⟨false, true, fpr, bg, false, false, true, false, ⟨g.x - bg.x, g.y - bg.y⟩⟩

/-- One background drag step: mouse-down at grab point `g` over the
background (storing `dragStart = g − origin` as `handleMouseDown` does),
then `handleMouseMove` to `target`. -/
def backgroundDragStep (fpr bg : Rect) (g target : Point) : Rect :=
  (handleMouseMove (mkBgDragState fpr bg g) target.x target.y).backgroundPosition

/-- C9: starting from an idle state, a pointer-down on the background body
yields exactly the drag state modelled by `mkBgDragState`, and dragging
the background by (dx, dy) and then by (−dx, −dy) from the same grab
point restores the original rectangle exactly when no clamp bound is hit
in either move. -/
theorem C9_background_drag_involution (fpr bg : Rect) (g : Point) (dx dy : ℚ)
    (h1 : -200 ≤ bg.x + dx) (h2 : bg.x + dx ≤ 1280)
    (h3 : 0 ≤ bg.y + dy) (h4 : bg.y + dy ≤ 1920 - bg.height)
    (h5 : -200 ≤ bg.x) (h6 : bg.x ≤ 1280)
    (h7 : 0 ≤ bg.y) (h8 : bg.y ≤ 1920 - bg.height) :
    (isInBackground ⟨false, true, fpr, bg, false, false, false, false, ⟨0, 0⟩⟩
        g.x g.y = true →
      isInBackgroundResizeHandle ⟨false, true, fpr, bg, false, false, false, false, ⟨0, 0⟩⟩
        g.x g.y = false →
      handleMouseDown ⟨false, true, fpr, bg, false, false, false, false, ⟨0, 0⟩⟩
        g.x g.y = mkBgDragState fpr bg g) ∧
    backgroundDragStep fpr (backgroundDragStep fpr bg g ⟨g.x + dx, g.y + dy⟩) g
      ⟨g.x - dx, g.y - dy⟩ = bg := by
  constructor
  · intro hin hno
    simp [handleMouseDown, hin, hno, mkBgDragState]
  · have step1 : backgroundDragStep fpr bg g ⟨g.x + dx, g.y + dy⟩ =
        ⟨bg.x + dx, bg.y + dy, bg.width, bg.height⟩ := by
      simp only [backgroundDragStep, mkBgDragState, handleMouseMove]
      norm_num [Rect.mk.injEq]
      constructor
      · rw [show dx + bg.x = bg.x + dx by ring, min_eq_right h2, max_eq_right h1]
      · rw [show dy + bg.y = bg.y + dy by ring, min_eq_right h4, max_eq_right h3]
    rw [step1]
    simp only [backgroundDragStep, mkBgDragState, handleMouseMove]
    norm_num [Rect.mk.injEq]
    rw [min_eq_right h6, max_eq_right h5, min_eq_right h8, max_eq_right h7]

/-- C9 witness: the background at (100, 100, 1080, 1350), grabbed at
(200, 200), dragged by (50, 30) and back by (−50, −30), is restored
exactly; the pointer-down at (200, 200) starts exactly the background
drag gesture. -/
theorem C9_background_drag_involution_witness :
    (handleMouseDown
        ⟨false, true, ⟨0, 0, 100, 75⟩, ⟨100, 100, 1080, 1350⟩,
          false, false, false, false, ⟨0, 0⟩⟩ 200 200 =
      mkBgDragState ⟨0, 0, 100, 75⟩ ⟨100, 100, 1080, 1350⟩ ⟨200, 200⟩) ∧
      backgroundDragStep ⟨0, 0, 100, 75⟩
        (backgroundDragStep ⟨0, 0, 100, 75⟩ ⟨100, 100, 1080, 1350⟩ ⟨200, 200⟩
          ⟨200 + 50, 200 + 30⟩) ⟨200, 200⟩ ⟨200 - 50, 200 - 30⟩ =
        ⟨100, 100, 1080, 1350⟩ :=
  ⟨(C9_background_drag_involution ⟨0, 0, 100, 75⟩ ⟨100, 100, 1080, 1350⟩
      ⟨200, 200⟩ 50 30 (by norm_num) (by norm_num) (by norm_num) (by norm_num)
      (by norm_num) (by norm_num) (by norm_num) (by norm_num)).1
      (by norm_num [isInBackground]) (by norm_num [isInBackgroundResizeHandle]),
    (C9_background_drag_involution ⟨0, 0, 100, 75⟩ ⟨100, 100, 1080, 1350⟩
      ⟨200, 200⟩ 50 30 (by norm_num) (by norm_num) (by norm_num) (by norm_num)
      (by norm_num) (by norm_num) (by norm_num) (by norm_num)).2⟩

/-- C10: `calculateMonthlyPayment` returns 0 when totalCost ≤ 0,
initialPayment < 0, rate ≤ 0 or totalCost − initialPayment ≤ 0; otherwise
it returns the standard annuity payment over 30 × 12 months on the loan
amount totalCost − initialPayment at monthly rate rate/100/12, rounded to
2 decimal places (JavaScript numbers embedded as exact rationals). -/
theorem C10_calculateMonthlyPayment_spec (totalCost initialPayment rate : ℚ) :
    (totalCost ≤ 0 ∨ initialPayment < 0 ∨ rate ≤ 0 ∨ totalCost - initialPayment ≤ 0 →
      calculateMonthlyPayment totalCost initialPayment rate 30 = 0) ∧
    (0 < totalCost → 0 ≤ initialPayment → 0 < rate → 0 < totalCost - initialPayment →
      calculateMonthlyPayment totalCost initialPayment rate 30 =
        roundTo2 (standardAnnuityPayment (totalCost - initialPayment)
          (rate / 100 / 12) (30 * 12))) := by
  constructor
  · intro h
    rcases h with h | h | h | h
    · simp [calculateMonthlyPayment, h]
    · simp [calculateMonthlyPayment, h]
    · simp [calculateMonthlyPayment, h]
    · by_cases hg : totalCost ≤ 0 ∨ initialPayment < 0 ∨ rate ≤ 0
      · simp [calculateMonthlyPayment, hg]
      · simp [calculateMonthlyPayment, hg, h]
  · intro h1 h2 h3 h4
    have hg : ¬ (totalCost ≤ 0 ∨ initialPayment < 0 ∨ rate ≤ 0) := by
      push_neg
      exact ⟨h1, h2, h3⟩
    have hl : ¬ (totalCost - initialPayment ≤ 0) := not_le.mpr h4
    simp [calculateMonthlyPayment, standardAnnuityPayment, roundTo2, hg, hl]

/-- C10 witness: total cost 2, initial payment 1, rate 12 passes the
guards and yields the rounded standard annuity payment; total cost −1
yields 0. -/
theorem C10_calculateMonthlyPayment_witness :
    calculateMonthlyPayment 2 1 12 30 =
        roundTo2 (standardAnnuityPayment ((2 : ℚ) - 1) (12 / 100 / 12) (30 * 12)) ∧
      calculateMonthlyPayment (-1) 0 5 30 = 0 :=
  ⟨(C10_calculateMonthlyPayment_spec 2 1 12).2
      (by norm_num) (by norm_num) (by norm_num) (by norm_num),
    (C10_calculateMonthlyPayment_spec (-1) 0 5).1 (by norm_num)⟩

end Stories
